import Mathlib

/-!
Verification development for `packages/compiler/src/render3/view/query_generation.ts`
(Angular render3 query lowering).

The source file is embedded shallowly: the output AST nodes it constructs become a
deep `Expression`/`Statement` datatype, and each exported function becomes a Lean
definition mirroring the TypeScript line by line.  External collaborators of the
file (output AST constructors, `ConstantPool`, `temporaryAllocator`,
`renderFlagCheckIfStmt`, `ForwardRefHandling`, the `R3` identifier table and the
`R3QueryMetadata` shape from `api.ts`) are not part of the analysed sources; they
are modelled from the specification, as marked in their doc comments.
-/

namespace QueryGeneration

/-- Modelled from the spec: the instruction identifier table (`R3` /
`r3_identifiers.ts`) is consumed as a set of opaque external references —
"view-query create (plain/signal), content-query create (plain/signal),
load-current-result, refresh, advance, resolve-forward-reference".  Each is an
uninterpreted token embedded into call expressions. -/
inductive R3Id where
  | viewQuery
  | viewQuerySignal
  | contentQuery
  | contentQuerySignal
  | queryAdvance
  | loadQuery
  | queryRefresh
  | resolveForwardRef
deriving DecidableEq, Repr

/-- Deep embedding of the output-AST expression nodes this file constructs
(`output_ast.ts` is an external collaborator; only the constructors the source
uses are modelled).  `readVar` is `o.variable(name)` (class `ReadVarExpr`);
`invokeFn` is the `InvokeFunctionExpr` produced by `.callFn`; `binAnd` is the
logical-AND `BinaryOperatorExpr` produced by `.and`; `poolSharedConst` is the
shared reference handed back by the constant pool (see `ConstantPool` below);
`undef` is the JavaScript `undefined` value (the result of a function body
falling through without hitting a `return`). -/
inductive Expression where
  | literalStr (value : String)
  | literalNum (value : Nat)
  | literalArr (entries : List Expression)
  | readVar (name : String)
  | readProp (receiver : Expression) (name : String)
  | importExpr (id : R3Id)
  | invokeFn (fn : Expression) (args : List Expression)
  | writeVar (name : String) (value : Expression)
  | writeProp (receiver : Expression) (name : String) (value : Expression)
  | binAnd (lhs : Expression) (rhs : Expression)
  | poolSharedConst (value : Expression) (forceShared : Bool)
  | undef

/-- Mirrors `o.literal(value)` for string tokens. -/
def literal (value : String) : Expression :=
  Expression.literalStr value

/-- Mirrors `o.literalArr(entries)`. -/
def literalArr (entries : List Expression) : Expression :=
  Expression.literalArr entries

/-- Mirrors `o.variable(name)` — builds a `ReadVarExpr`. -/
def variableExpr (name : String) : Expression :=
  Expression.readVar name

/-- Mirrors `o.importExpr(id)`. -/
def importExpr (id : R3Id) : Expression :=
  Expression.importExpr id

/-- Mirrors `expr.callFn(args)` — builds an `InvokeFunctionExpr`. -/
def Expression.callFn (fn : Expression) (args : List Expression) : Expression :=
  Expression.invokeFn fn args

/-- Mirrors `expr.prop(name)` — builds a `ReadPropExpr`. -/
def Expression.prop (receiver : Expression) (name : String) : Expression :=
  Expression.readProp receiver name

/-- Mirrors `.set(value)` on an output-AST read node: `ReadVarExpr.set` yields a
`WriteVarExpr`, `ReadPropExpr.set` yields a `WritePropExpr`.  These are the only
two receivers the source calls `.set` on; other nodes have no `set` method, so
the remaining branch is never exercised and returns the receiver unchanged. -/
def Expression.set (target : Expression) (value : Expression) : Expression :=
  match target with
  | Expression.readVar name => Expression.writeVar name value
  | Expression.readProp receiver name => Expression.writeProp receiver name value
  | other => other

/-- Mirrors `lhs.and(rhs)` — the logical-AND binary operator expression. -/
def Expression.andExpr (lhs : Expression) (rhs : Expression) : Expression :=
  Expression.binAnd lhs rhs

/-- Deep embedding of the statement nodes the source builds.  `exprStmt` is
`.toStmt()` (an `ExpressionStatement`); `renderFlagIf` is the phase-gate
conditional produced by `renderFlagCheckIfStmt` (an external collaborator,
modelled from the spec as an opaque `gate(phaseFlag, statements)` wrapper). -/
inductive Statement where
  | exprStmt (expr : Expression)
  | renderFlagIf (flag : Nat) (body : List Statement)

/-- Mirrors `expr.toStmt()`. -/
def Expression.toStmt (expr : Expression) : Statement :=
  Statement.exprStmt expr

/-- Modelled from the spec: `renderFlagCheckIfStmt` (from `template.ts`) is the
"phase-gate wrapper `gate(phaseFlag, statements)`" producing a conditional that
executes `statements` only when the runtime phase bitmask includes the flag. -/
def renderFlagCheckIfStmt (flag : Nat) (statements : List Statement) : Statement :=
  Statement.renderFlagIf flag statements

/-- Modelled from the spec: the runtime phase bitmask values `Create` and
`Update` (`core.RenderFlags`), defined by the consuming runtime. -/
def RenderFlags.Create : Nat := 1

/-- Modelled from the spec: the `Update` phase flag. -/
def RenderFlags.Update : Nat := 2

/-- Modelled from the spec: `CONTEXT_NAME` from `view/util.ts`, the name of the
context parameter of a synthesized function. -/
def CONTEXT_NAME : String := "ctx"

/-- Modelled from the spec: `RENDER_FLAGS` from `view/util.ts`, the name of the
phase-flags parameter of a synthesized function. -/
def RENDER_FLAGS : String := "rf"

/-- Modelled from the spec: `TEMPORARY_NAME` from `view/util.ts`, the name of
the reusable temporary slot of a generated update block. -/
def TEMPORARY_NAME : String := "_t"

/-- Modelled from the spec: `temporaryAllocator` (from `view/util.ts`) "yields a
reusable local-variable reference, scoped to one generated function, safe to
reuse across sequential statements" — one temporary slot per update block.  The
spec specifies no statement emission for it, so the allocator is modelled as a
pure thunk returning the reusable `ReadVarExpr` for the given name.  (The
source passes the update-statement array to it; with a pure allocator that
argument is inert and is omitted here.) -/
def temporaryAllocator (name : String) : Unit → Expression :=
  fun _ => Expression.readVar name

/-- Modelled from the spec: the `ConstantPool` "maps a literal-array value to a
shared reference; requesting the same literal array twice (structural equality)
yields the identical reference".  The pool itself carries no observable state
for this core, so `getConstLiteral` is modelled as a pure map from the
requested literal and the force-shared flag to the shared reference node; two
structurally equal requests yield the identical (structurally equal) node,
which is the dedup guarantee the spec states. -/
structure ConstantPool where

/-- Mirrors `constantPool.getConstLiteral(value, forceShared)`. -/
def ConstantPool.getConstLiteral (_pool : ConstantPool) (value : Expression)
    (forceShared : Bool) : Expression :=
  Expression.poolSharedConst value forceShared

/-- JavaScript `String.prototype.split(',')`, as invoked by the source on each
selector string: cuts the string at every comma, keeping empty pieces, and
yields `[""]` for the empty string.  Embedded as a right fold over the
character list so that it is kernel-computable. -/
def jsSplitComma (s : String) : List String :=
  (s.data.foldr
    (fun c acc =>
      match acc with
      | cur :: rest => if c = ',' then [] :: cur :: rest else (c :: cur) :: rest
      | [] => [])
    [[]]).map String.mk

/-- JavaScript `String.prototype.trim()`, as invoked by the source on each
comma-separated token: strips leading and trailing whitespace.  (JS trims the
full Unicode whitespace class; the embedding uses `Char.isWhitespace`, which
covers the ASCII whitespace the selector syntax can contain.) -/
def jsTrim (s : String) : String :=
  String.mk (((s.data.dropWhile Char.isWhitespace).reverse.dropWhile Char.isWhitespace).reverse)

/-- Modelled from the spec: `ForwardRefHandling` (from `render3/util.ts`) is the
forward-reference disposition, a closed three-member `const enum`
{`None`, `Unwrapped` (spec: AlreadyUnwrapped), `Wrapped` (spec: StillWrapped)}.
A TypeScript `const enum` is a number at runtime, so the disposition is
embedded as `Nat` with the enum's member values; values other than 0, 1, 2 are
exactly the "unrecognized dispositions" of the spec's error-handling section. -/
def ForwardRefHandling.None : Nat := 0

/-- Modelled from the spec: `ForwardRefHandling.Unwrapped` (AlreadyUnwrapped). -/
def ForwardRefHandling.Unwrapped : Nat := 1

/-- Modelled from the spec: `ForwardRefHandling.Wrapped` (StillWrapped). -/
def ForwardRefHandling.Wrapped : Nat := 2

/-- Modelled from the spec: a `MaybeForwardRefExpression` — "a single expression
value tagged with a forward-reference disposition". -/
structure MaybeForwardRefExpression where
  expression : Expression
  forwardRef : Nat

/-- The predicate of a query: `MaybeForwardRefExpression | string[]`.  The
source discriminates the two shapes with `Array.isArray`, which the embedding
replaces by a tagged union (the spec's "tagged union — either an ordered set of
reference-name strings, or a single expression value tagged with a
forward-reference disposition"). -/
inductive QueryPredicate where
  | selectors (refs : List String)
  | forwardRefExpr (value : MaybeForwardRefExpression)

/-- Modelled from the spec: the query descriptor `R3QueryMetadata` (from
`view/api.ts`) — `propertyName` (field written in the update phase), `first`,
`predicate`, `descendants`, `emitDistinctChangesOnly`, `static`, optional
`read`, `isSignal`.  `read` is `o.Expression | null`; the source's truthiness
test `if (query.read)` is faithfully an `Option` match, since every expression
object is truthy. -/
structure R3QueryMetadata where
  propertyName : String
  first : Bool
  predicate : QueryPredicate
  descendants : Bool
  emitDistinctChangesOnly : Bool
  static : Bool
  read : Option Expression
  isSignal : Bool

/-- Source `QueryFlags.none = 0b0000`. -/
def QueryFlags.none : Nat := 0

/-- Source `QueryFlags.descendants = 0b0001`. -/
def QueryFlags.descendants : Nat := 1

/-- Source `QueryFlags.isStatic = 0b0010`. -/
def QueryFlags.isStatic : Nat := 2

/-- Source `QueryFlags.emitDistinctChangesOnly = 0b0100`. -/
def QueryFlags.emitDistinctChangesOnly : Nat := 4

/-- Source `toQueryFlags(query)` — translates query metadata into the `TQueryFlags`
bitmask: bitwise OR of `descendants`, `isStatic` and `emitDistinctChangesOnly`
contributions, each replaced by `none` (0) when the trait is absent. -/
def toQueryFlags (query : R3QueryMetadata) : Nat :=
  (if query.descendants then QueryFlags.descendants else QueryFlags.none) |||
  (if query.static then QueryFlags.isStatic else QueryFlags.none) |||
  (if query.emitDistinctChangesOnly then QueryFlags.emitDistinctChangesOnly else QueryFlags.none)

/-- Source `getQueryPredicate(query, constantPool)`.

Selector-list branch: each selector string may contain comma-separated refs;
the source splits on `,`, trims each token, wraps each as a string literal,
flattens everything into one array (a `forEach` pushing into `predicate`,
embedded as a left fold over the selector list) and requests the literal array
from the constant pool with `forceShared = true`.

Expression branch: a `switch` over the forward-reference disposition with
cases `None`/`Unwrapped` (return the expression unchanged) and `Wrapped`
(wrap in a `resolveForwardRef` call).  The switch has NO default case: on any
other disposition the function body falls through and returns JavaScript
`undefined`, embedded as `Expression.undef`. -/
def getQueryPredicate (query : R3QueryMetadata) (constantPool : ConstantPool) : Expression :=
  match query.predicate with
  | QueryPredicate.selectors preds =>
    let predicate : List Expression :=
      preds.foldl
        (fun acc selector =>
          acc ++ ((jsSplitComma selector).map (fun token => literal (jsTrim token))))
        []
    constantPool.getConstLiteral (literalArr predicate) true
  | QueryPredicate.forwardRefExpr p =>
    if p.forwardRef = ForwardRefHandling.None ∨ p.forwardRef = ForwardRefHandling.Unwrapped then
      p.expression
    else if p.forwardRef = ForwardRefHandling.Wrapped then
      (importExpr R3Id.resolveForwardRef).callFn [p.expression]
    else
      Expression.undef

/-- The `queryTypeFns` argument of `createQueryCreateCall`:
`{signalBased: o.ExternalReference; nonSignal: o.ExternalReference}`. -/
structure QueryTypeFns where
  signalBased : R3Id
  nonSignal : R3Id

/-- Source `createQueryCreateCall(query, constantPool, queryTypeFns, prependParams?)` —
assembles the creation-call argument list (prepended params, then the signal
target property read, then predicate and flags, then the optional `read`) and
invokes the signal-based or non-signal instruction accordingly.  The source
pushes into a `parameters` array; the embedding concatenates the same segments
in the same order. -/
def createQueryCreateCall (query : R3QueryMetadata) (constantPool : ConstantPool)
    (queryTypeFns : QueryTypeFns) (prependParams : Option (List Expression)) : Expression :=
  let parameters : List Expression :=
    (match prependParams with
     | some ps => ps
     | none => []) ++
    (if query.isSignal then
      [Expression.readProp (variableExpr CONTEXT_NAME) query.propertyName]
     else []) ++
    [getQueryPredicate query constantPool, Expression.literalNum (toQueryFlags query)] ++
    (match query.read with
     | some read => [read]
     | none => [])
  let queryCreateFn : R3Id :=
    if query.isSignal then queryTypeFns.signalBased else queryTypeFns.nonSignal
  (importExpr queryCreateFn).callFn parameters

/-- The creation statement contributed by one view query: the
`createQueryCreateCall` with the view instruction pair
`{signalBased: R3.viewQuerySignal, nonSignal: R3.viewQuery}` (no prepended
params), pushed as a statement. -/
def viewQueryCreateStatement (query : R3QueryMetadata) (constantPool : ConstantPool) : Statement :=
  (createQueryCreateCall query constantPool
    (QueryTypeFns.mk R3Id.viewQuerySignal R3Id.viewQuery) Option.none).toStmt

/-- The update statement contributed by one view query, the body of the
`viewQueries.forEach` after the creation push: signal queries push a
zero-argument `queryAdvance` call and return early; classic queries build
`(r3.queryRefresh(tmp = r3.loadQuery()) && (ctx.someDir = tmp))` using the
function's reusable temporary. -/
def viewQueryUpdateStatement (query : R3QueryMetadata) : Statement :=
  if query.isSignal then
    ((importExpr R3Id.queryAdvance).callFn []).toStmt
  else
    let temporary := temporaryAllocator TEMPORARY_NAME ()
    let getQueryList := (importExpr R3Id.loadQuery).callFn []
    let refresh := (importExpr R3Id.queryRefresh).callFn [temporary.set getQueryList]
    let updateDirective :=
      ((variableExpr CONTEXT_NAME).prop query.propertyName).set
        (if query.first then temporary.prop "first" else temporary)
    (refresh.andExpr updateDirective).toStmt

/-- The `createStatements` list of `createViewQueriesFunction`: the `forEach`
pushes exactly one creation statement per query, in input order (the creation
push touches only `createStatements`, so the loop splits into one map per
list). -/
def viewQueryCreateStatements (viewQueries : List R3QueryMetadata)
    (constantPool : ConstantPool) : List Statement :=
  viewQueries.map (fun query => viewQueryCreateStatement query constantPool)

/-- The `updateStatements` list of `createViewQueriesFunction`: one update
statement per query, in input order. -/
def viewQueryUpdateStatements (viewQueries : List R3QueryMetadata) : List Statement :=
  viewQueries.map viewQueryUpdateStatement

/-- A function parameter `new o.FnParam(name, type)`; the source passes
`o.NUMBER_TYPE` or `null` for the type. -/
structure FnParam where
  name : String
  isNumberType : Bool

/-- The function value produced by `o.fn(params, statements, INFERRED_TYPE,
null, name)`; the inferred result type and null source span are constant and
omitted. -/
structure FunctionExpr where
  params : List FnParam
  statements : List Statement
  name : Option String

/-- Source `createViewQueriesFunction(viewQueries, constantPool, name?)` — builds the
creation and update statement lists, wraps each behind its render-flag gate and
returns the function value named `` `${name}_Query` `` (JavaScript truthiness:
an absent *or empty* name yields the anonymous function, since `''` is falsy in
`name ? ... : null`). -/
def createViewQueriesFunction (viewQueries : List R3QueryMetadata)
    (constantPool : ConstantPool) (name : Option String) : FunctionExpr :=
  let createStatements := viewQueryCreateStatements viewQueries constantPool
  let updateStatements := viewQueryUpdateStatements viewQueries
  let viewQueryFnName : Option String :=
    match name with
    | some n => if n = "" then Option.none else some (n ++ "_Query")
    | none => Option.none
  FunctionExpr.mk
    [FnParam.mk RENDER_FLAGS true, FnParam.mk CONTEXT_NAME false]
    [renderFlagCheckIfStmt RenderFlags.Create createStatements,
     renderFlagCheckIfStmt RenderFlags.Update updateStatements]
    viewQueryFnName

/-- The creation statement contributed by one content query: the
`createQueryCreateCall` with the content instruction pair
`{nonSignal: R3.contentQuery, signalBased: R3.contentQuerySignal}` and the
directive index variable prepended. -/
def contentQueryCreateStatement (query : R3QueryMetadata)
    (constantPool : ConstantPool) : Statement :=
  (createQueryCreateCall query constantPool
    (QueryTypeFns.mk R3Id.contentQuerySignal R3Id.contentQuery)
    (some [variableExpr "dirIndex"])).toStmt

/-- The update statement contributed by one content query — the body of the
`for (const query of queries)` loop after the creation push, textually
duplicated from the view synthesizer in the source (signal: advance and
`continue`; classic: refresh-AND-write via the reusable temporary). -/
def contentQueryUpdateStatement (query : R3QueryMetadata) : Statement :=
  if query.isSignal then
    ((importExpr R3Id.queryAdvance).callFn []).toStmt
  else
    let temporary := temporaryAllocator TEMPORARY_NAME ()
    let getQueryList := (importExpr R3Id.loadQuery).callFn []
    let refresh := (importExpr R3Id.queryRefresh).callFn [temporary.set getQueryList]
    let updateDirective :=
      ((variableExpr CONTEXT_NAME).prop query.propertyName).set
        (if query.first then temporary.prop "first" else temporary)
    (refresh.andExpr updateDirective).toStmt

/-- The `createStatements` list of `createContentQueriesFunction`. -/
def contentQueryCreateStatements (queries : List R3QueryMetadata)
    (constantPool : ConstantPool) : List Statement :=
  queries.map (fun query => contentQueryCreateStatement query constantPool)

/-- The `updateStatements` list of `createContentQueriesFunction`. -/
def contentQueryUpdateStatements (queries : List R3QueryMetadata) : List Statement :=
  queries.map contentQueryUpdateStatement

/-- Source `createContentQueriesFunction(queries, constantPool, name?)` — like the view
synthesizer but with the content instruction identifiers, the prepended
`dirIndex` creation argument, an extra `dirIndex` function parameter, and the
`` `${name}_ContentQueries` `` naming scheme (same truthiness behavior). -/
def createContentQueriesFunction (queries : List R3QueryMetadata)
    (constantPool : ConstantPool) (name : Option String) : FunctionExpr :=
  let createStatements := contentQueryCreateStatements queries constantPool
  let updateStatements := contentQueryUpdateStatements queries
  let contentQueriesFnName : Option String :=
    match name with
    | some n => if n = "" then Option.none else some (n ++ "_ContentQueries")
    | none => Option.none
  FunctionExpr.mk
    [FnParam.mk RENDER_FLAGS true, FnParam.mk CONTEXT_NAME false,
     FnParam.mk "dirIndex" false]
    [renderFlagCheckIfStmt RenderFlags.Create createStatements,
     renderFlagCheckIfStmt RenderFlags.Update updateStatements]
    contentQueriesFnName

/-! ## Shared fixtures and helper lemmas -/

/-- A constant pool instance for concrete evaluations. -/
def emptyPool : ConstantPool := ConstantPool.mk

/-- Folding list-append over a list, starting from an accumulator, is the
accumulator followed by the flattened per-element lists.  This is the shape of
the `forEach`/`push(...selectors)` loop in `getQueryPredicate`. -/
theorem foldl_append_eq_flatMap {α β : Type} (f : α → List β) (acc : List β) (l : List α) :
    List.foldl (fun acc s => acc ++ f s) acc l = acc ++ l.flatMap f := by
  induction l generalizing acc with
  | nil => simp
  | cons x xs ih => simp [ih, List.flatMap]

/-! ## Claims -/

/-- C1: For every input list of N ≥ 0 query descriptors, both
`createViewQueriesFunction` and `createContentQueriesFunction` produce a
creation statement list with exactly N entries, one per descriptor in
descriptor input order, and an update statement list with exactly N entries,
one per descriptor in descriptor input order.  (Lengths are N; the i-th entry
of each list is the statement contributed by the i-th descriptor; and these
lists are exactly the ones placed behind the Create/Update gates of the
synthesized functions.) -/
theorem oneCreateAndOneUpdateStatementPerDescriptor
    (qs : List R3QueryMetadata) (pool : ConstantPool) (nm : Option String) :
    (viewQueryCreateStatements qs pool).length = qs.length ∧
    (viewQueryUpdateStatements qs).length = qs.length ∧
    (contentQueryCreateStatements qs pool).length = qs.length ∧
    (contentQueryUpdateStatements qs).length = qs.length ∧
    (∀ i : Nat, (viewQueryCreateStatements qs pool)[i]? =
      (qs[i]?).map (fun q => viewQueryCreateStatement q pool)) ∧
    (∀ i : Nat, (viewQueryUpdateStatements qs)[i]? =
      (qs[i]?).map viewQueryUpdateStatement) ∧
    (∀ i : Nat, (contentQueryCreateStatements qs pool)[i]? =
      (qs[i]?).map (fun q => contentQueryCreateStatement q pool)) ∧
    (∀ i : Nat, (contentQueryUpdateStatements qs)[i]? =
      (qs[i]?).map contentQueryUpdateStatement) ∧
    (createViewQueriesFunction qs pool nm).statements =
      [renderFlagCheckIfStmt RenderFlags.Create (viewQueryCreateStatements qs pool),
       renderFlagCheckIfStmt RenderFlags.Update (viewQueryUpdateStatements qs)] ∧
    (createContentQueriesFunction qs pool nm).statements =
      [renderFlagCheckIfStmt RenderFlags.Create (contentQueryCreateStatements qs pool),
       renderFlagCheckIfStmt RenderFlags.Update (contentQueryUpdateStatements qs)] := by
  refine ⟨?_, ?_, ?_, ?_, ?_, ?_, ?_, ?_, rfl, rfl⟩ <;>
    simp [viewQueryCreateStatements, viewQueryUpdateStatements,
      contentQueryCreateStatements, contentQueryUpdateStatements]

/-- C3: For every descriptor, the encoded flags integer equals the bitwise OR
of 1 (`descendants`), 2 (`static`) and 4 (`emitDistinctChangesOnly`), with each
absent trait contributing 0; equivalently it is the sum of the individually
contributed bits, and e.g. descendants = true, static = false,
emitDistinctChangesOnly = true encodes to `0b0101`. -/
theorem toQueryFlagsIsSumOfIndependentBits (q : R3QueryMetadata) :
    toQueryFlags q =
      (if q.descendants then 1 else 0) + (if q.static then 2 else 0) +
        (if q.emitDistinctChangesOnly then 4 else 0) ∧
    toQueryFlags
      (R3QueryMetadata.mk "x" false (QueryPredicate.selectors []) true true false
        Option.none false) = 5 := by
  refine ⟨?_, rfl⟩
  have h : toQueryFlags q =
      (if q.descendants then QueryFlags.descendants else QueryFlags.none) |||
      (if q.static then QueryFlags.isStatic else QueryFlags.none) |||
      (if q.emitDistinctChangesOnly then QueryFlags.emitDistinctChangesOnly
       else QueryFlags.none) := rfl
  rw [h]
  cases q.descendants <;> cases q.static <;> cases q.emitDistinctChangesOnly <;> decide

/-- C4: For every selector-list predicate, `getQueryPredicate` splits each
selector string on commas in input order, trims each piece, collects every
piece as a string literal into one flat ordered list, wraps that list as a
literal array, and requests it from the constant pool with the force-shared
flag set to true; in particular the predicate `["a, b", "c"]` yields the
flattened literal sequence `["a", "b", "c"]`. -/
theorem getQueryPredicateFlattensAndSharesSelectors
    (ss : List String) (pool : ConstantPool) (pn : String) (fi de ed st sig : Bool)
    (rd : Option Expression) :
    getQueryPredicate
      (R3QueryMetadata.mk pn fi (QueryPredicate.selectors ss) de ed st rd sig) pool =
      Expression.poolSharedConst
        (Expression.literalArr
          (ss.flatMap (fun s =>
            (jsSplitComma s).map (fun t => Expression.literalStr (jsTrim t)))))
        true ∧
    getQueryPredicate
      (R3QueryMetadata.mk pn fi (QueryPredicate.selectors ["a, b", "c"]) de ed st rd sig)
      emptyPool =
      Expression.poolSharedConst
        (Expression.literalArr
          [Expression.literalStr "a", Expression.literalStr "b", Expression.literalStr "c"])
        true := by
  constructor
  · simp only [getQueryPredicate, ConstantPool.getConstLiteral, literal, literalArr,
      foldl_append_eq_flatMap, List.nil_append]
  · rfl

/-- C5: For every expression-variant predicate: if the forward-reference
disposition is `None` or `Unwrapped` (AlreadyUnwrapped), `getQueryPredicate`
returns the original expression itself, unchanged and unwrapped; if the
disposition is `Wrapped` (StillWrapped), it returns a call expression invoking
the resolve-forward-reference instruction with the original expression as its
sole argument, wrapping it exactly once. -/
theorem getQueryPredicateForwardRefDispositions
    (pn : String) (fi : Bool) (e : Expression) (de ed st : Bool)
    (rd : Option Expression) (sig : Bool) (pool : ConstantPool) :
    getQueryPredicate
      (R3QueryMetadata.mk pn fi
        (QueryPredicate.forwardRefExpr
          (MaybeForwardRefExpression.mk e ForwardRefHandling.None)) de ed st rd sig)
      pool = e ∧
    getQueryPredicate
      (R3QueryMetadata.mk pn fi
        (QueryPredicate.forwardRefExpr
          (MaybeForwardRefExpression.mk e ForwardRefHandling.Unwrapped)) de ed st rd sig)
      pool = e ∧
    getQueryPredicate
      (R3QueryMetadata.mk pn fi
        (QueryPredicate.forwardRefExpr
          (MaybeForwardRefExpression.mk e ForwardRefHandling.Wrapped)) de ed st rd sig)
      pool =
      Expression.invokeFn (Expression.importExpr R3Id.resolveForwardRef) [e] :=
  ⟨rfl, rfl, rfl⟩

/-- A descriptor whose expression predicate carries the out-of-range
forward-reference disposition 3 (not `None` = 0, `Unwrapped` = 1 or
`Wrapped` = 2). -/
def unrecognizedDispositionQuery : R3QueryMetadata :=
  R3QueryMetadata.mk "q" false
    (QueryPredicate.forwardRefExpr
      (MaybeForwardRefExpression.mk (Expression.readVar "SomeType") 3))
    false false false Option.none false

/-- C2, counterexample: on an unrecognized forward-reference disposition,
`getQueryPredicate` does NOT fail fast.  The `switch` in the source has no
default case, so the function completes normally and returns JavaScript
`undefined`; no error is raised, and the invoking `createQueryCreateCall`
proceeds to build a full creation call with `undefined` embedded as the
predicate argument instead of lowering being aborted. -/
theorem unrecognizedDispositionReturnsUndefinedNotError :
    getQueryPredicate unrecognizedDispositionQuery emptyPool = Expression.undef ∧
    createQueryCreateCall unrecognizedDispositionQuery emptyPool
        (QueryTypeFns.mk R3Id.viewQuerySignal R3Id.viewQuery) Option.none =
      Expression.invokeFn (Expression.importExpr R3Id.viewQuery)
        [Expression.undef, Expression.literalNum 0] :=
  ⟨rfl, rfl⟩

/-- C2, amended: for every predicate in the expression variant whose
forward-reference disposition is not one of the three recognized values,
`getQueryPredicate` returns normally with JavaScript `undefined` (no
expression object); it does not raise an error. -/
theorem getQueryPredicateUnrecognizedDispositionIsUndefined
    (pn : String) (fi : Bool) (e : Expression) (fr : Nat) (de ed st : Bool)
    (rd : Option Expression) (sig : Bool) (pool : ConstantPool)
    (h0 : fr ≠ ForwardRefHandling.None) (h1 : fr ≠ ForwardRefHandling.Unwrapped)
    (h2 : fr ≠ ForwardRefHandling.Wrapped) :
    getQueryPredicate
      (R3QueryMetadata.mk pn fi
        (QueryPredicate.forwardRefExpr (MaybeForwardRefExpression.mk e fr)) de ed st rd sig)
      pool = Expression.undef := by
  simp [getQueryPredicate, h0, h1, h2]

/-- Witness for the amended C2 at the concrete disposition 3. -/
theorem getQueryPredicateUnrecognizedDispositionIsUndefinedWitness :
    getQueryPredicate
      (R3QueryMetadata.mk "q" false
        (QueryPredicate.forwardRefExpr
          (MaybeForwardRefExpression.mk (Expression.readVar "SomeType") 3))
        false false false Option.none false)
      emptyPool = Expression.undef :=
  getQueryPredicateUnrecognizedDispositionIsUndefined "q" false
    (Expression.readVar "SomeType") 3 false false false Option.none false emptyPool
    (by decide) (by decide) (by decide)

/-- C6: `createQueryCreateCall` returns a single call expression invoking
`queryTypeFns.signalBased` when `isSignal` and `queryTypeFns.nonSignal`
otherwise, with arguments in exactly this order: the caller-supplied prepended
arguments; then, if `isSignal`, a property read of `propertyName` off the
context reference; then the resolved predicate; then the encoded flags literal;
then, if `read` is set, that expression last.  The same holds with no
prepended arguments (empty prefix), and every content-query creation statement
places the `dirIndex` argument first. -/
theorem createQueryCreateCallAssemblesArgumentsInOrder
    (q : R3QueryMetadata) (pool : ConstantPool) (fns : QueryTypeFns)
    (pre : List Expression) :
    createQueryCreateCall q pool fns (some pre) =
      Expression.invokeFn
        (Expression.importExpr (if q.isSignal then fns.signalBased else fns.nonSignal))
        (pre ++
          (if q.isSignal then
            [Expression.readProp (Expression.readVar CONTEXT_NAME) q.propertyName]
           else []) ++
          [getQueryPredicate q pool, Expression.literalNum (toQueryFlags q)] ++
          (match q.read with
           | some r => [r]
           | none => [])) ∧
    createQueryCreateCall q pool fns Option.none =
      Expression.invokeFn
        (Expression.importExpr (if q.isSignal then fns.signalBased else fns.nonSignal))
        (([] : List Expression) ++
          (if q.isSignal then
            [Expression.readProp (Expression.readVar CONTEXT_NAME) q.propertyName]
           else []) ++
          [getQueryPredicate q pool, Expression.literalNum (toQueryFlags q)] ++
          (match q.read with
           | some r => [r]
           | none => [])) ∧
    contentQueryCreateStatement q pool =
      Statement.exprStmt
        (Expression.invokeFn
          (Expression.importExpr
            (if q.isSignal then R3Id.contentQuerySignal else R3Id.contentQuery))
          (Expression.readVar "dirIndex" ::
            ((if q.isSignal then
               [Expression.readProp (Expression.readVar CONTEXT_NAME) q.propertyName]
              else []) ++
             [getQueryPredicate q pool, Expression.literalNum (toQueryFlags q)] ++
             (match q.read with
              | some r => [r]
              | none => [])))) :=
  ⟨rfl, rfl, rfl⟩

/-- The advance statement a signal query contributes to the update list:
`r3.queryAdvance()` with zero arguments, as an expression statement. -/
def queryAdvanceStatement : Statement :=
  Statement.exprStmt (Expression.invokeFn (Expression.importExpr R3Id.queryAdvance) [])

/-- C7: For every descriptor with `isSignal` true, in both the view and content
synthesizers, the descriptor contributes exactly one update statement — a call
to the advance instruction with zero arguments — regardless of the `first`
flag, and no temporary, load, refresh or property-write is produced for it. -/
theorem signalQueryUpdateIsSingleZeroArgAdvance
    (q : R3QueryMetadata) (h : q.isSignal = true) :
    viewQueryUpdateStatement q = queryAdvanceStatement ∧
    contentQueryUpdateStatement q = queryAdvanceStatement := by
  constructor <;>
    simp [viewQueryUpdateStatement, contentQueryUpdateStatement, h,
      queryAdvanceStatement, importExpr, Expression.callFn, Expression.toStmt]

/-- Witness for C7: a concrete signal descriptor with `first = true` still
contributes the zero-argument advance statement. -/
theorem signalQueryUpdateIsSingleZeroArgAdvanceWitness :
    viewQueryUpdateStatement
        (R3QueryMetadata.mk "s" true (QueryPredicate.selectors ["ref"]) false false false
          Option.none true) = queryAdvanceStatement ∧
    contentQueryUpdateStatement
        (R3QueryMetadata.mk "s" true (QueryPredicate.selectors ["ref"]) false false false
          Option.none true) = queryAdvanceStatement :=
  signalQueryUpdateIsSingleZeroArgAdvance
    (R3QueryMetadata.mk "s" true (QueryPredicate.selectors ["ref"]) false false false
      Option.none true) rfl

/-- C8: For every descriptor with `isSignal` false, the update statement is a
single logical-AND expression statement whose left-hand side is the refresh
call (whose argument assigns the load-current-result call into the temporary)
and whose right-hand side is the property write: `ctx.propertyName` is
assigned `temporary.first` when `first` is true and the temporary itself when
`first` is false — in both synthesizers. -/
theorem classicQueryUpdateIsRefreshAndGuardedWrite
    (q : R3QueryMetadata) (h : q.isSignal = false) :
    viewQueryUpdateStatement q =
      Statement.exprStmt
        (Expression.binAnd
          (Expression.invokeFn (Expression.importExpr R3Id.queryRefresh)
            [Expression.writeVar TEMPORARY_NAME
              (Expression.invokeFn (Expression.importExpr R3Id.loadQuery) [])])
          (Expression.writeProp (Expression.readVar CONTEXT_NAME) q.propertyName
            (if q.first then
              Expression.readProp (Expression.readVar TEMPORARY_NAME) "first"
             else Expression.readVar TEMPORARY_NAME))) ∧
    contentQueryUpdateStatement q =
      Statement.exprStmt
        (Expression.binAnd
          (Expression.invokeFn (Expression.importExpr R3Id.queryRefresh)
            [Expression.writeVar TEMPORARY_NAME
              (Expression.invokeFn (Expression.importExpr R3Id.loadQuery) [])])
          (Expression.writeProp (Expression.readVar CONTEXT_NAME) q.propertyName
            (if q.first then
              Expression.readProp (Expression.readVar TEMPORARY_NAME) "first"
             else Expression.readVar TEMPORARY_NAME))) := by
  constructor <;>
    simp [viewQueryUpdateStatement, contentQueryUpdateStatement, h, temporaryAllocator,
      Expression.set, Expression.prop, Expression.andExpr, Expression.toStmt,
      Expression.callFn, importExpr, variableExpr]

/-- Witness for C8 at a concrete classic descriptor with `first = true`. -/
theorem classicQueryUpdateIsRefreshAndGuardedWriteWitness :
    viewQueryUpdateStatement
        (R3QueryMetadata.mk "someDir" true (QueryPredicate.selectors ["ref"]) true false
          false Option.none false) =
      Statement.exprStmt
        (Expression.binAnd
          (Expression.invokeFn (Expression.importExpr R3Id.queryRefresh)
            [Expression.writeVar TEMPORARY_NAME
              (Expression.invokeFn (Expression.importExpr R3Id.loadQuery) [])])
          (Expression.writeProp (Expression.readVar CONTEXT_NAME) "someDir"
            (Expression.readProp (Expression.readVar TEMPORARY_NAME) "first"))) ∧
    contentQueryUpdateStatement
        (R3QueryMetadata.mk "someDir" true (QueryPredicate.selectors ["ref"]) true false
          false Option.none false) =
      Statement.exprStmt
        (Expression.binAnd
          (Expression.invokeFn (Expression.importExpr R3Id.queryRefresh)
            [Expression.writeVar TEMPORARY_NAME
              (Expression.invokeFn (Expression.importExpr R3Id.loadQuery) [])])
          (Expression.writeProp (Expression.readVar CONTEXT_NAME) "someDir"
            (Expression.readProp (Expression.readVar TEMPORARY_NAME) "first"))) :=
  classicQueryUpdateIsRefreshAndGuardedWrite
    (R3QueryMetadata.mk "someDir" true (QueryPredicate.selectors ["ref"]) true false
      false Option.none false) rfl

/-- C9, counterexample: the empty owner name `""` is an owner name string, yet
the synthesized functions are anonymous — not named `"_Query"` /
`"_ContentQueries"` — because the source computes the name with JavaScript
truthiness (`name ? ... : null`) and `''` is falsy. -/
theorem emptyOwnerNameYieldsAnonymousFunctions :
    (createViewQueriesFunction [] emptyPool (some "")).name = Option.none ∧
    (createContentQueriesFunction [] emptyPool (some "")).name = Option.none ∧
    (createViewQueriesFunction [] emptyPool (some "")).name ≠ some "_Query" ∧
    (createContentQueriesFunction [] emptyPool (some "")).name ≠ some "_ContentQueries" := by
  refine ⟨rfl, rfl, ?_, ?_⟩ <;> simp [createViewQueriesFunction, createContentQueriesFunction]

/-- C9, amended: for every nonempty owner name `n`, the synthesized function is
named `n ++ "_Query"` by `createViewQueriesFunction` and
`n ++ "_ContentQueries"` by `createContentQueriesFunction`; when no owner name
is supplied (or the supplied name is empty, which JavaScript truthiness treats
the same way), the function is anonymous. -/
theorem ownerNameDeterminesFunctionName
    (qs : List R3QueryMetadata) (pool : ConstantPool) (n : String) (h : n ≠ "") :
    (createViewQueriesFunction qs pool (some n)).name = some (n ++ "_Query") ∧
    (createContentQueriesFunction qs pool (some n)).name = some (n ++ "_ContentQueries") ∧
    (createViewQueriesFunction qs pool Option.none).name = Option.none ∧
    (createContentQueriesFunction qs pool Option.none).name = Option.none := by
  refine ⟨?_, ?_, rfl, rfl⟩ <;>
    simp [createViewQueriesFunction, createContentQueriesFunction, h]

/-- Witness for the amended C9 at the owner name `"Foo"`. -/
theorem ownerNameDeterminesFunctionNameWitness :
    (createViewQueriesFunction [] emptyPool (some "Foo")).name = some "Foo_Query" ∧
    (createContentQueriesFunction [] emptyPool (some "Foo")).name =
      some "Foo_ContentQueries" ∧
    (createViewQueriesFunction [] emptyPool (Option.none : Option String)).name =
      Option.none ∧
    (createContentQueriesFunction [] emptyPool (Option.none : Option String)).name =
      Option.none :=
  ownerNameDeterminesFunctionName [] emptyPool "Foo" (by decide)

/-- C10: For every descriptor list and constant pool, the update statement list
built by `createContentQueriesFunction` is identical, statement by statement,
to the update statement list built by `createViewQueriesFunction` for the same
input (the two loop bodies are duplicates, and the shared temporary allocator
behaves identically in both); the content synthesizer otherwise differs only
in the creation-call instruction identifiers with the prepended `dirIndex`
argument (its Create gate), the extra `dirIndex` function parameter, and the
function name. -/
theorem contentAndViewUpdateListsCoincide
    (qs : List R3QueryMetadata) (pool : ConstantPool) (nm : Option String) :
    contentQueryUpdateStatements qs = viewQueryUpdateStatements qs ∧
    (createContentQueriesFunction qs pool nm).statements =
      [renderFlagCheckIfStmt RenderFlags.Create (contentQueryCreateStatements qs pool),
       renderFlagCheckIfStmt RenderFlags.Update (viewQueryUpdateStatements qs)] ∧
    (createContentQueriesFunction qs pool nm).params =
      (createViewQueriesFunction qs pool nm).params ++ [FnParam.mk "dirIndex" false] :=
  ⟨rfl, rfl, rfl⟩

end QueryGeneration
